import Mathlib

/-!
Shallow embedding of the lemmy federation engine (crates/apub) for
specification checking: the federation domain policy
(check_apub_id_valid, check_apub_id_valid_with_strictness), the
activity ledger (insert_activity), and the inbound receive paths of
Delete (deletion/removal engine) and UndoFollow (follow manager).
Rust Result values, together with the possibility of a panic
(expect / unimplemented), are embedded as ExecResult; database state
is passed explicitly as a DbState record.
-/

namespace Lemmy

/-- Outcome of a fallible Rust computation: a normal value, an error
carried as its message string, or a panic (from expect or the
unimplemented macro), which in Rust aborts the task instead of
returning. -/
inductive ExecResult (α : Type) where
  | ok (a : α)
  | err (msg : String)
  | panicked (msg : String)
deriving DecidableEq, Repr

/-- True exactly on the ok constructor. -/
def ExecResult.isOk {α : Type} : ExecResult α → Bool
  | .ok _ => true
  | _ => false

/-- True exactly on the err constructor. -/
def ExecResult.isErr {α : Type} : ExecResult α → Bool
  | .err _ => true
  | _ => false

/-- True exactly on the panicked constructor. -/
def ExecResult.isPanicked {α : Type} : ExecResult α → Bool
  | .panicked _ => true
  | _ => false

/-- A parsed URL, as used by the policy checks: only the scheme and
the optional domain component matter to the embedded code. Url.domain
in Rust returns an Option, mirrored here by the field. -/
structure Url where
  scheme : String
  domain : Option String
deriving DecidableEq, Repr

/-- An instance row (crates/db_schema source instance): only the
domain field is read by the embedded functions. -/
structure Instance where
  domain : String
deriving DecidableEq, Repr

/-- The local site row: only federation_enabled is read by the
embedded functions. -/
structure LocalSite where
  federation_enabled : Bool
deriving DecidableEq, Repr

/-- LocalSiteData from crates/apub/src/lib.rs: the local site row may
be missing, and empty allow and block lists are normalized to none by
fetch_local_site_data. -/
structure LocalSiteData where
  local_site : Option LocalSite
  allowed_instances : Option (List Instance)
  blocked_instances : Option (List Instance)
deriving DecidableEq, Repr

/-- Settings: the configured hostname and whether TLS is enabled,
the two pieces the embedded functions read. -/
structure Settings where
  hostname : String
  tls_enabled : Bool
deriving DecidableEq, Repr

/-- Characters of the hostname before the first colon, the host part
of a host colon port string. -/
def hostWithoutPort : List Char → List Char
  | [] => []
  | c :: rest => if c = ':' then [] else c :: hostWithoutPort rest

/-- Modelled from the call sites in lib.rs: get_hostname_without_port
(lemmy_utils settings, not under src) strips the port from the
configured hostname; the source asserts validity of the configured
hostname with expect, treated here as always valid configuration. -/
def Settings.get_hostname_without_port (s : Settings) : String :=
  ⟨hostWithoutPort s.hostname.data⟩

/-- Modelled from the call sites in lib.rs: get_protocol_string
(lemmy_utils settings, not under src) is https when TLS is enabled and
http otherwise. -/
def Settings.get_protocol_string (s : Settings) : String :=
  if s.tls_enabled then "https" else "http"

/-- check_apub_id_valid from crates/apub/src/lib.rs lines 91 to 130.
The expect on the missing domain is embedded as a panicked outcome;
the early returns become nested conditionals in source order: local
domain, federation enabled, scheme, blocklist, allowlist. -/
def check_apub_id_valid (apub_id : Url) (local_site_data : LocalSiteData)
    (settings : Settings) : ExecResult Unit :=
  match apub_id.domain with
  | none => .panicked "apud id has domain"
  | some domain =>
    let local_instance := settings.get_hostname_without_port
    if domain == local_instance then
      .ok ()
    else if !((local_site_data.local_site.map
        (fun l => l.federation_enabled)).getD true) then
      .err "Federation disabled"
    else if apub_id.scheme != settings.get_protocol_string then
      .err "Invalid protocol scheme"
    else if (match local_site_data.blocked_instances with
        | some blocked => blocked.any (fun i => domain == i.domain)
        | none => false) then
      .err "Domain is blocked"
    else if (match local_site_data.allowed_instances with
        | some allowed => !(allowed.any (fun i => domain == i.domain))
        | none => false) then
      .err "Domain is not in allowlist"
    else
      .ok ()

/-- check_apub_id_valid_with_strictness from crates/apub/src/lib.rs
lines 159 to 193: first the permissive check (errors mapped through
LemmyError::from_message, which keeps the message), then the local
domain early return, then the strict allowlist check that also admits
the local instance. -/
def check_apub_id_valid_with_strictness (apub_id : Url) (is_strict : Bool)
    (local_site_data : LocalSiteData) (settings : Settings) : ExecResult Unit :=
  match check_apub_id_valid apub_id local_site_data settings with
  | .err e => .err e
  | .panicked m => .panicked m
  | .ok _ =>
    match apub_id.domain with
    | none => .panicked "apud id has domain"
    | some domain =>
      let local_instance := settings.get_hostname_without_port
      if domain == local_instance then
        .ok ()
      else
        match local_site_data.allowed_instances with
        | some allowed =>
          if is_strict then
            let allowed_and_local :=
              (allowed.map (fun i => i.domain)) ++ [local_instance]
            if !(allowed_and_local.contains domain) then
              .err "Federation forbidden by strict allowlist"
            else
              .ok ()
          else
            .ok ()
        | none => .ok ()

/-- A community row; the source field named local (authority flag) is
embedded as is_local because local is a Lean keyword. -/
structure Community where
  id : Nat
  ap_id : String
  is_local : Bool
  removed : Bool
  deleted : Bool
deriving DecidableEq, Repr

/-- A post row, with the flags the deletion engine touches. -/
structure Post where
  id : Nat
  ap_id : String
  removed : Bool
  deleted : Bool
deriving DecidableEq, Repr

/-- A comment row, with the flags the deletion engine touches. -/
structure Comment where
  id : Nat
  ap_id : String
  removed : Bool
  deleted : Bool
deriving DecidableEq, Repr

/-- A private message row. -/
structure PrivateMessage where
  id : Nat
  ap_id : String
  deleted : Bool
deriving DecidableEq, Repr

/-- A person row, as produced by dereferencing an actor id. -/
structure Person where
  id : Nat
  ap_id : String
deriving DecidableEq, Repr

/-- ModRemoveCommunityForm from lemmy_db_schema, as filled in by
receive_remove_action; the created row stores exactly these fields. -/
structure ModRemoveCommunityForm where
  mod_person_id : Nat
  community_id : Nat
  removed : Option Bool
  reason : Option String
  expires : Option Nat
deriving DecidableEq, Repr

/-- ModRemovePostForm from lemmy_db_schema. -/
structure ModRemovePostForm where
  mod_person_id : Nat
  post_id : Nat
  removed : Option Bool
  reason : Option String
deriving DecidableEq, Repr

/-- ModRemoveCommentForm from lemmy_db_schema. -/
structure ModRemoveCommentForm where
  mod_person_id : Nat
  comment_id : Nat
  removed : Option Bool
  reason : Option String
deriving DecidableEq, Repr

/-- PersonFollowerForm from lemmy_db_schema. -/
structure PersonFollowerForm where
  person_id : Nat
  follower_id : Nat
  pending : Bool
deriving DecidableEq, Repr

/-- CommunityFollowerForm from lemmy_db_schema. -/
structure CommunityFollowerForm where
  community_id : Nat
  person_id : Nat
  pending : Bool
deriving DecidableEq, Repr

/-- UserOperationCrud operation codes sent to the websocket
collaborator by receive_remove_action. -/
inductive UserOperationCrud where
  | RemoveCommunity
  | RemovePost
  | RemoveComment
deriving DecidableEq, Repr

/-- A requested websocket notification: operation code plus the id of
the affected entity. -/
structure Notification where
  op : UserOperationCrud
  entity_id : Nat
deriving DecidableEq, Repr

/-- The Delete activity (protocol/activities/deletion/delete.rs): the
object is embedded by its id URL string (IdOrNestedObject.id), the
reason travels in summary. -/
structure Delete where
  actor : String
  «to» : List String
  object : String
  cc : List String
  summary : Option String
  id : String
  audience : Option String
deriving DecidableEq, Repr

/-- The inner Follow activity of an UndoFollow. -/
structure Follow where
  actor : String
  object : String
  id : String
deriving DecidableEq, Repr

/-- The UndoFollow activity (protocol/activities/following). -/
structure UndoFollow where
  actor : String
  object : Follow
  id : String
deriving DecidableEq, Repr

/-- The serialized payload stored in the activity ledger: one of the
two inbound activity kinds under study. -/
inductive ActivityPayload where
  | delete (d : Delete)
  | undoFollow (u : UndoFollow)
deriving DecidableEq, Repr

/-- A row of the activity table; the source column named local is
embedded as is_local. -/
structure LedgerEntry where
  ap_id : String
  data : ActivityPayload
  is_local : Bool
  sensitive : Bool
deriving DecidableEq, Repr

/-- ActivityInsertForm from lemmy_db_schema, as filled by
insert_activity. -/
structure ActivityInsertForm where
  ap_id : String
  data : ActivityPayload
  is_local : Option Bool
  sensitive : Option Bool
  updated : Option Nat
deriving DecidableEq, Repr

/-- The whole persistent state touched by the embedded receive paths:
the activity ledger, the entity tables, the moderation log tables, the
follower tables, and the list of requested notifications (newest
first in every list). -/
structure DbState where
  activities : List LedgerEntry
  communities : List Community
  posts : List Post
  comments : List Comment
  private_messages : List PrivateMessage
  persons : List Person
  mod_remove_community : List ModRemoveCommunityForm
  mod_remove_post : List ModRemovePostForm
  mod_remove_comment : List ModRemoveCommentForm
  person_followers : List PersonFollowerForm
  community_followers : List CommunityFollowerForm
  notifications : List Notification
deriving DecidableEq, Repr

/-- Modelled from the spec: Activity::create (lemmy_db_schema, not
under src) inserts a row keyed uniquely by ap_id; per spec section 4.5
a duplicate apId is detected via the unique constraint conflict of the
insert itself, which surfaces on the error channel of create, since
the Ok value of create is the inserted row and the visible caller
propagates errors with the question mark operator. -/
def Activity.create (form : ActivityInsertForm) (st : DbState) :
    ExecResult LedgerEntry × DbState :=
  if st.activities.any (fun a => a.ap_id == form.ap_id) then
    (.err "duplicate activity ap_id", st)
  else
    let entry : LedgerEntry :=
      { ap_id := form.ap_id
        data := form.data
        is_local := form.is_local.getD false
        sensitive := form.sensitive.getD false }
    (.ok entry, { st with activities := entry :: st.activities })

/-- insert_activity from crates/apub/src/lib.rs lines 200 to 220:
builds the insert form and performs the ledger insert, propagating any
error. -/
def insert_activity (ap_id : String) (activity : ActivityPayload)
    (is_local : Bool) (sensitive : Bool) (st : DbState) :
    ExecResult Unit × DbState :=
  let form : ActivityInsertForm :=
    { ap_id := ap_id
      data := activity
      is_local := some is_local
      sensitive := some sensitive
      updated := none }
  match Activity.create form st with
  | (.ok _, st) => (.ok (), st)
  | (.err e, st) => (.err e, st)
  | (.panicked m, st) => (.panicked m, st)

/-- Modelled from the spec: the audit retrieve endpoint (spec section
4.5, served from crates/apub/src/http which is not under src) returns
the stored payload by activity id, withholding it when the entry is
sensitive. -/
def retrieve (ap_id : String) (st : DbState) : Option ActivityPayload :=
  match st.activities.find? (fun a => a.ap_id == ap_id) with
  | some entry => if entry.sensitive then none else some entry.data
  | none => none

/-- DeletableObjects from activities/deletion/mod.rs: the closed union
of object kinds the deletion engine can resolve. -/
inductive DeletableObjects where
  | community (c : Community)
  | post (p : Post)
  | comment (c : Comment)
  | privateMessage (pm : PrivateMessage)
deriving DecidableEq, Repr

/-- Modelled from the spec: DeletableObjects::read_from_db
(activities/deletion/mod.rs, not under src) resolves an object id to
one of the locally known entity kinds, or reports a resolution miss
(spec section 6, resolve yields DeletableObject or NotFound). -/
def DeletableObjects.read_from_db (ap_id : String) (st : DbState) :
    Option DeletableObjects :=
  match st.communities.find? (fun c => c.ap_id == ap_id) with
  | some c => some (.community c)
  | none =>
    match st.posts.find? (fun p => p.ap_id == ap_id) with
    | some p => some (.post p)
    | none =>
      match st.comments.find? (fun c => c.ap_id == ap_id) with
      | some c => some (.comment c)
      | none =>
        match st.private_messages.find? (fun pm => pm.ap_id == ap_id) with
        | some pm => some (.privateMessage pm)
        | none => none

/-- Modelled from the spec: dereferencing an actor id to a person row
(ObjectId::dereference through the fetcher, not under src); a miss is
an error at the caller. -/
def dereference_person (ap_id : String) (st : DbState) : Option Person :=
  st.persons.find? (fun p => p.ap_id == ap_id)

/-- receive_remove_action from
crates/apub/src/activities/deletion/delete.rs lines 114 to 182:
branches on the resolved object kind; a local community is refused,
post, comment and remote community get a moderation log row, the
removed flag flip, and a notification; the PrivateMessage arm is the
unimplemented macro, a panic. -/
def receive_remove_action (actor : Person) (object : String)
    (reason : Option String) (st : DbState) : ExecResult Unit × DbState :=
  match DeletableObjects.read_from_db object st with
  | none => (.err "couldnt_find_object", st)
  | some (.community community) =>
    if community.is_local then
      (.err "Only local admin can remove community", st)
    else
      let form : ModRemoveCommunityForm :=
        { mod_person_id := actor.id
          community_id := community.id
          removed := some true
          reason := reason
          expires := none }
      let st1 := { st with mod_remove_community := form :: st.mod_remove_community }
      let updated_communities := st1.communities.map
        (fun c => if c.id == community.id then { c with removed := true } else c)
      let st2 := { st1 with communities := updated_communities }
      let note : Notification := { op := .RemoveCommunity, entity_id := community.id }
      let st3 := { st2 with notifications := note :: st2.notifications }
      (.ok (), st3)
  | some (.post post) =>
    let form : ModRemovePostForm :=
      { mod_person_id := actor.id
        post_id := post.id
        removed := some true
        reason := reason }
    let st1 := { st with mod_remove_post := form :: st.mod_remove_post }
    let updated_posts := st1.posts.map
      (fun p => if p.id == post.id then { p with removed := true } else p)
    let st2 := { st1 with posts := updated_posts }
    let note : Notification := { op := .RemovePost, entity_id := post.id }
    let st3 := { st2 with notifications := note :: st2.notifications }
    (.ok (), st3)
  | some (.comment comment) =>
    let form : ModRemoveCommentForm :=
      { mod_person_id := actor.id
        comment_id := comment.id
        removed := some true
        reason := reason }
    let st1 := { st with mod_remove_comment := form :: st.mod_remove_comment }
    let updated_comments := st1.comments.map
      (fun c => if c.id == comment.id then { c with removed := true } else c)
    let st2 := { st1 with comments := updated_comments }
    let note : Notification := { op := .RemoveComment, entity_id := comment.id }
    let st3 := { st2 with notifications := note :: st2.notifications }
    (.ok (), st3)
  | some (.privateMessage _) => (.panicked "not implemented", st)

/-- Modelled from the spec: receive_delete_action
(activities/deletion/mod.rs, not under src) applies the self delete
path, spec section 4.2: a plain deleted flag on the resolved object,
no moderation record, no kind distinction beyond locating the
object. -/
def receive_delete_action (object : String) (deleted : Bool) (st : DbState) :
    ExecResult Unit × DbState :=
  match DeletableObjects.read_from_db object st with
  | none => (.err "couldnt_find_object", st)
  | some (.community community) =>
    let updated := st.communities.map
      (fun c => if c.id == community.id then { c with deleted := deleted } else c)
    (.ok (), { st with communities := updated })
  | some (.post post) =>
    let updated := st.posts.map
      (fun p => if p.id == post.id then { p with deleted := deleted } else p)
    (.ok (), { st with posts := updated })
  | some (.comment comment) =>
    let updated := st.comments.map
      (fun c => if c.id == comment.id then { c with deleted := deleted } else c)
    (.ok (), { st with comments := updated })
  | some (.privateMessage pm) =>
    let updated := st.private_messages.map
      (fun m => if m.id == pm.id then { m with deleted := deleted } else m)
    (.ok (), { st with private_messages := updated })

/-- Delete::receive from
crates/apub/src/activities/deletion/delete.rs lines 63 to 83: ledger
insert first with is_local false and sensitive false, then the
reason normalization (empty string back to none) and the moderator
remove path when summary is present, otherwise the self delete
path. -/
def Delete.receive (d : Delete) (st : DbState) : ExecResult Unit × DbState :=
  match insert_activity d.id (.delete d) false false st with
  | (.err e, st) => (.err e, st)
  | (.panicked m, st) => (.panicked m, st)
  | (.ok _, st) =>
    match d.summary with
    | some reason =>
      let reason := if reason.isEmpty then none else some reason
      match dereference_person d.actor st with
      | none => (.err "couldnt_find_person", st)
      | some actor => receive_remove_action actor d.object reason st
    | none => receive_delete_action d.object true st

/-- Modelled from the spec: resolution of the followee to a person or
a community (fetcher user_or_community.rs, not under src). -/
inductive UserOrCommunity where
  | user (p : Person)
  | community (c : Community)
deriving DecidableEq, Repr

/-- Modelled from the spec: dereferencing a followee id, trying
persons first and then communities. -/
def dereference_user_or_community (ap_id : String) (st : DbState) :
    Option UserOrCommunity :=
  match st.persons.find? (fun p => p.ap_id == ap_id) with
  | some p => some (.user p)
  | none =>
    match st.communities.find? (fun c => c.ap_id == ap_id) with
    | some c => some (.community c)
    | none => none

/-- Modelled from the spec: PersonFollower::unfollow (lemmy_db_schema,
not under src) deletes the relationship row keyed by follower and
followee; unfollow of a missing relationship is a no-op (spec
section 4.3). -/
def PersonFollower.unfollow (form : PersonFollowerForm) (st : DbState) : DbState :=
  let kept := st.person_followers.filter
    (fun f => !(f.person_id == form.person_id && f.follower_id == form.follower_id))
  { st with person_followers := kept }

/-- Modelled from the spec: CommunityFollower::unfollow
(lemmy_db_schema, not under src), same contract as the person
variant. -/
def CommunityFollower.unfollow (form : CommunityFollowerForm) (st : DbState) : DbState :=
  let kept := st.community_followers.filter
    (fun f => !(f.community_id == form.community_id && f.person_id == form.person_id))
  { st with community_followers := kept }

/-- UndoFollow::receive from
crates/apub/src/activities/following/undo_follow.rs lines 71 to 96:
ledger insert first with is_local false and sensitive true, then
dereference of actor and followee, then the idempotent unfollow on
the matching relationship table. -/
def UndoFollow.receive (u : UndoFollow) (st : DbState) : ExecResult Unit × DbState :=
  match insert_activity u.id (.undoFollow u) false true st with
  | (.err e, st) => (.err e, st)
  | (.panicked m, st) => (.panicked m, st)
  | (.ok _, st) =>
    match dereference_person u.actor st with
    | none => (.err "couldnt_find_person", st)
    | some person =>
      match dereference_user_or_community u.object.object st with
      | none => (.err "couldnt_find_object", st)
      | some (.user target) =>
        let form : PersonFollowerForm :=
          { person_id := target.id, follower_id := person.id, pending := false }
        (.ok (), PersonFollower.unfollow form st)
      | some (.community c) =>
        let form : CommunityFollowerForm :=
          { community_id := c.id, person_id := person.id, pending := false }
        (.ok (), CommunityFollower.unfollow form st)

/-! Concrete fixtures used by witnesses and counterexamples. -/

/-- A database state with every table empty. -/
def emptyDb : DbState :=
  { activities := [], communities := [], posts := [], comments := []
    private_messages := [], persons := []
    mod_remove_community := [], mod_remove_post := [], mod_remove_comment := []
    person_followers := [], community_followers := [], notifications := [] }

/-- Fixture settings: TLS enabled, hostname local.example. -/
def settings0 : Settings := { hostname := "local.example", tls_enabled := true }

/-- Fixture policy snapshot: federation enabled, allowlist good.example,
blocklist evil.example. -/
def lsd0 : LocalSiteData :=
  { local_site := some { federation_enabled := true }
    allowed_instances := some [{ domain := "good.example" }]
    blocked_instances := some [{ domain := "evil.example" }] }

/-- Fixture policy snapshot: federation disabled and the local domain
itself blocklisted, to exercise the local bypass. -/
def lsdHostile : LocalSiteData :=
  { local_site := some { federation_enabled := false }
    allowed_instances := some [{ domain := "good.example" }]
    blocked_instances := some [{ domain := "local.example" }] }

/-- Fixture remote moderator. -/
def person1 : Person := { id := 7, ap_id := "https://remote.example/u/m1" }

/-- Fixture post row. -/
def post3 : Post :=
  { id := 3, ap_id := "https://local.example/post/3", removed := false, deleted := false }

/-- Fixture local community row. -/
def community5 : Community :=
  { id := 5, ap_id := "https://local.example/c/main", is_local := true
    removed := false, deleted := false }

/-- Fixture private message row. -/
def pm9 : PrivateMessage :=
  { id := 9, ap_id := "https://local.example/pm/9", deleted := false }

/-- Fixture state holding the moderator, a post, a local community and
a private message, with an empty ledger. -/
def db1 : DbState :=
  { emptyDb with
    persons := [person1]
    posts := [post3]
    communities := [community5]
    private_messages := [pm9] }

/-- Fixture inbound Delete targeting the post with reason spam. -/
def delSpam : Delete :=
  { actor := "https://remote.example/u/m1", «to» := ["https://local.example/"]
    object := "https://local.example/post/3", cc := [], summary := some "spam"
    id := "https://remote.example/act/1", audience := none }

/-- Fixture inbound Delete targeting the local community with a reason. -/
def delLocalCommunity : Delete :=
  { actor := "https://remote.example/u/m1", «to» := ["https://local.example/"]
    object := "https://local.example/c/main", cc := [], summary := some "rules"
    id := "https://remote.example/act/2", audience := none }

/-- Fixture inbound UndoFollow wrapping a Follow of the community. -/
def undo1 : UndoFollow :=
  { actor := "https://remote.example/u/m1"
    object := { actor := "https://remote.example/u/m1"
                object := "https://local.example/c/main"
                id := "https://remote.example/act/f1" }
    id := "https://remote.example/act/u1" }

/-- Fixture state whose ledger already holds entries for the Delete
and UndoFollow fixture ids. -/
def dbDup : DbState :=
  { db1 with activities :=
    [ { ap_id := "https://remote.example/act/1", data := .delete delSpam
        is_local := false, sensitive := false }
    , { ap_id := "https://remote.example/act/u1", data := .undoFollow undo1
        is_local := false, sensitive := true } ] }

/-! Helper lemmas. -/

/-- Object resolution reads no ledger data: updating the activities
field does not change it. -/
lemma read_from_db_activities_update (o : String) (st : DbState) (l : List LedgerEntry) :
    DeletableObjects.read_from_db o { st with activities := l } =
    DeletableObjects.read_from_db o st := rfl

/-- Actor dereference reads no ledger data. -/
lemma dereference_person_activities_update (a : String) (st : DbState) (l : List LedgerEntry) :
    dereference_person a { st with activities := l } = dereference_person a st := rfl

/-- Followee dereference reads no ledger data. -/
lemma dereference_user_or_community_activities_update (a : String) (st : DbState)
    (l : List LedgerEntry) :
    dereference_user_or_community a { st with activities := l } =
    dereference_user_or_community a st := rfl

/-- The moderator remove path never touches the activity ledger. -/
lemma receive_remove_action_activities (actor : Person) (o : String)
    (reason : Option String) (st : DbState) :
    ((receive_remove_action actor o reason st).2).activities = st.activities := by
  unfold receive_remove_action
  rcases DeletableObjects.read_from_db o st with _ | obj
  · rfl
  · rcases obj with c | p | c | pm
    · by_cases h : c.is_local <;> simp [h]
    · rfl
    · rfl
    · rfl

/-- The self delete path never touches the activity ledger. -/
lemma receive_delete_action_activities (o : String) (deleted : Bool) (st : DbState) :
    ((receive_delete_action o deleted st).2).activities = st.activities := by
  unfold receive_delete_action
  rcases DeletableObjects.read_from_db o st with _ | obj
  · rfl
  · rcases obj with c | p | c | pm <;> rfl

/-- A fresh Delete receive prepends exactly one ledger entry, with
is_local false and sensitive false, whatever happens afterwards. -/
lemma delete_receive_activities (d : Delete) (st : DbState)
    (hd : st.activities.any (fun a => a.ap_id == d.id) = false) :
    (Delete.receive d st).2.activities =
      { ap_id := d.id, data := .delete d, is_local := false, sensitive := false }
        :: st.activities := by
  unfold Delete.receive insert_activity Activity.create
  simp only [hd, Bool.false_eq_true, if_false]
  cases hs : d.summary with
  | none => simp [receive_delete_action_activities]
  | some reason =>
    simp only []
    rcases hp : dereference_person d.actor
        { st with activities :=
          { ap_id := d.id, data := .delete d, is_local := false, sensitive := false }
            :: st.activities } with _ | person
    · simp [hp]
    · simp [hp, receive_remove_action_activities]

/-- A fresh UndoFollow receive prepends exactly one ledger entry, with
is_local false and sensitive true, whatever happens afterwards. -/
lemma undo_follow_receive_activities (u : UndoFollow) (st : DbState)
    (hu : st.activities.any (fun a => a.ap_id == u.id) = false) :
    (UndoFollow.receive u st).2.activities =
      { ap_id := u.id, data := .undoFollow u, is_local := false, sensitive := true }
        :: st.activities := by
  unfold UndoFollow.receive insert_activity Activity.create
  simp only [hu, Bool.false_eq_true, if_false]
  rcases hp : dereference_person u.actor
      { st with activities :=
        { ap_id := u.id, data := .undoFollow u, is_local := false, sensitive := true }
          :: st.activities } with _ | person
  · simp [hp]
  · rcases hq : dereference_user_or_community u.object.object
        { st with activities :=
          { ap_id := u.id, data := .undoFollow u, is_local := false, sensitive := true }
            :: st.activities } with _ | x
    · simp [hp, hq]
    · rcases x with target | c
      · simp [hp, hq, PersonFollower.unfollow]
      · simp [hp, hq, CommunityFollower.unfollow]

/-! Claim theorems. -/

/-- C7: for every policy snapshot and both strict modes, evaluating
the local instance domain yields Allow unconditionally, even when
federation is disabled, the scheme differs from the configured
protocol, or the domain appears in the blocklist. -/
theorem c7_local_domain_always_allowed (url : Url) (lsd : LocalSiteData)
    (s : Settings) (is_strict : Bool)
    (h : url.domain = some s.get_hostname_without_port) :
    check_apub_id_valid url lsd s = .ok () ∧
    check_apub_id_valid_with_strictness url is_strict lsd s = .ok () := by
  have h1 : check_apub_id_valid url lsd s = .ok () := by
    simp [check_apub_id_valid, h]
  refine ⟨h1, ?_⟩
  simp [check_apub_id_valid_with_strictness, h1, h]

/-- C7 witness: the local domain is allowed in strict mode even when
federation is disabled and the local domain itself is blocklisted. -/
theorem c7_local_domain_always_allowed_witness :
    check_apub_id_valid { scheme := "gopher", domain := some "local.example" }
      lsdHostile settings0 = .ok () ∧
    check_apub_id_valid_with_strictness
      { scheme := "gopher", domain := some "local.example" } true
      lsdHostile settings0 = .ok () :=
  c7_local_domain_always_allowed
    { scheme := "gopher", domain := some "local.example" } lsdHostile settings0 true rfl

/-- C6: every non-local domain present in the blocklist is denied, for
every allowlist; when the evaluation reaches the list checks, that is
when federation is enabled and the scheme matches, the denial reason
is the block one, showing the block check precedes and is independent
of the allow check. -/
theorem c6_blocklist_always_denies (url : Url) (lsd : LocalSiteData) (s : Settings)
    (d : String) (blocked : List Instance)
    (hd : url.domain = some d)
    (hnl : d ≠ s.get_hostname_without_port)
    (hb : lsd.blocked_instances = some blocked)
    (hmem : blocked.any (fun i => d == i.domain) = true) :
    (check_apub_id_valid url lsd s).isErr = true ∧
    (((lsd.local_site.map (fun l => l.federation_enabled)).getD true) = true →
      url.scheme = s.get_protocol_string →
      check_apub_id_valid url lsd s = .err "Domain is blocked") := by
  have hbeq : (d == s.get_hostname_without_port) = false := by
    simp [hnl]
  constructor
  · simp only [check_apub_id_valid, hd, hb, hmem, hbeq]
    split_ifs <;> simp_all [ExecResult.isErr]
  · intro hfed hscheme
    simp [check_apub_id_valid, hd, hb, hmem, hbeq, hfed, hscheme]

/-- C6 witness: evil.example, blocklisted and absent from the
allowlist consideration, is denied with the block reason. -/
theorem c6_blocklist_always_denies_witness :
    (check_apub_id_valid { scheme := "https", domain := some "evil.example" }
      lsd0 settings0).isErr = true ∧
    check_apub_id_valid { scheme := "https", domain := some "evil.example" }
      lsd0 settings0 = .err "Domain is blocked" := by
  have h := c6_blocklist_always_denies
    { scheme := "https", domain := some "evil.example" } lsd0 settings0
    "evil.example" [{ domain := "evil.example" }] rfl (by decide) rfl (by decide)
  exact ⟨h.1, h.2 rfl rfl⟩

/-- C10: with a domain present, both policy checks are total, never
reaching the asserted domain extraction; with the domain absent, both
checks hit the assertion and panic instead of returning. -/
theorem c10_policy_checks_total (url : Url) (lsd : LocalSiteData) (s : Settings)
    (is_strict : Bool) :
    (∀ d, url.domain = some d →
      (check_apub_id_valid url lsd s).isPanicked = false ∧
      (check_apub_id_valid_with_strictness url is_strict lsd s).isPanicked = false) ∧
    (url.domain = none →
      check_apub_id_valid url lsd s = .panicked "apud id has domain" ∧
      check_apub_id_valid_with_strictness url is_strict lsd s =
        .panicked "apud id has domain") := by
  constructor
  · intro d hd
    have hbase : (check_apub_id_valid url lsd s).isPanicked = false := by
      simp only [check_apub_id_valid, hd]
      split_ifs <;> simp [ExecResult.isPanicked]
    refine ⟨hbase, ?_⟩
    rcases hres : check_apub_id_valid url lsd s with _ | e | m
    · rcases ha : lsd.allowed_instances with _ | allowed <;>
        simp only [check_apub_id_valid_with_strictness, hres, hd, ha] <;>
        split_ifs <;> simp [ExecResult.isPanicked]
    · simp [check_apub_id_valid_with_strictness, hres, ExecResult.isPanicked]
    · rw [hres] at hbase
      simp [ExecResult.isPanicked] at hbase
  · intro hd
    have hbase : check_apub_id_valid url lsd s = .panicked "apud id has domain" := by
      simp [check_apub_id_valid, hd]
    exact ⟨hbase, by simp [check_apub_id_valid_with_strictness, hbase]⟩

/-- C10 witness: a URL with a domain is handled without panic by both
checks, and a URL without a domain panics at the assertion. -/
theorem c10_policy_checks_total_witness :
    (check_apub_id_valid { scheme := "https", domain := some "good.example" }
      lsd0 settings0).isPanicked = false ∧
    check_apub_id_valid { scheme := "https", domain := none } lsd0 settings0 =
      .panicked "apud id has domain" :=
  ⟨((c10_policy_checks_total { scheme := "https", domain := some "good.example" }
      lsd0 settings0 true).1 "good.example" rfl).1,
   ((c10_policy_checks_total { scheme := "https", domain := none }
      lsd0 settings0 true).2 rfl).1⟩

/-- C8 counterexample: with strict mode, an active allowlist
containing only good.example, federation enabled and a matching
scheme, the non-member domain bad.example is denied by the permissive
base check with reason Domain is not in allowlist; the strict
allowlist reason never appears. -/
theorem c8_strict_allowlist_cex :
    check_apub_id_valid_with_strictness
      { scheme := "https", domain := some "bad.example" } true lsd0 settings0 =
      .err "Domain is not in allowlist" ∧
    check_apub_id_valid_with_strictness
      { scheme := "https", domain := some "bad.example" } true lsd0 settings0 ≠
      .err "Federation forbidden by strict allowlist" := by
  constructor
  · decide
  · decide

/-- C8 amended: with strict mode and an allowlist present, a domain is
allowed only if it is in the allowlist or is the local domain; every
other domain is denied, but the denial reason is never the strict
allowlist one, because the permissive base check already requires
allowlist membership for non-local domains and fires first. -/
theorem c8_strict_allowlist_amended (url : Url) (lsd : LocalSiteData) (s : Settings)
    (d : String) (allowed : List Instance)
    (hd : url.domain = some d)
    (ha : lsd.allowed_instances = some allowed) :
    (check_apub_id_valid_with_strictness url true lsd s = .ok () →
      d = s.get_hostname_without_port ∨
      allowed.any (fun i => d == i.domain) = true) ∧
    (d ≠ s.get_hostname_without_port →
      allowed.any (fun i => d == i.domain) = false →
      ∃ e, check_apub_id_valid_with_strictness url true lsd s = .err e ∧
        e ≠ "Federation forbidden by strict allowlist") := by
  have part2 : d ≠ s.get_hostname_without_port →
      allowed.any (fun i => d == i.domain) = false →
      ∃ e, check_apub_id_valid_with_strictness url true lsd s = .err e ∧
        e ≠ "Federation forbidden by strict allowlist" := by
    intro hnl hno
    have hbeq : (d == s.get_hostname_without_port) = false := by
      simp [hnl]
    have hbase : ∃ e, check_apub_id_valid url lsd s = .err e ∧
        e ≠ "Federation forbidden by strict allowlist" := by
      simp only [check_apub_id_valid, hd, hbeq, ha, hno, Bool.not_false,
        if_true, Bool.false_eq_true, if_false]
      split_ifs
      · exact ⟨"Federation disabled", rfl, by decide⟩
      · exact ⟨"Invalid protocol scheme", rfl, by decide⟩
      · exact ⟨"Domain is blocked", rfl, by decide⟩
      · exact ⟨"Domain is not in allowlist", rfl, by decide⟩
    obtain ⟨e, he, hene⟩ := hbase
    exact ⟨e, by simp [check_apub_id_valid_with_strictness, he], hene⟩
  refine ⟨?_, part2⟩
  intro hok
  by_cases hl : d = s.get_hostname_without_port
  · exact Or.inl hl
  · refine Or.inr ?_
    by_contra hno
    rw [Bool.not_eq_true] at hno
    obtain ⟨e, he, _⟩ := part2 hl hno
    rw [hok] at he
    simp at he

/-- C8 witness: a concrete non-member domain under strict mode is
denied with a reason other than the strict allowlist one. -/
theorem c8_strict_allowlist_amended_witness :
    ∃ e, check_apub_id_valid_with_strictness
      { scheme := "https", domain := some "other.example" } true lsd0 settings0 =
      .err e ∧ e ≠ "Federation forbidden by strict allowlist" :=
  (c8_strict_allowlist_amended
    { scheme := "https", domain := some "other.example" } lsd0 settings0
    "other.example" [{ domain := "good.example" }] rfl rfl).2
    (by decide) (by decide)

/-- C1 counterexample: a moderator remove whose object resolves to a
private message does not fail with a clean error: the PrivateMessage
arm is the unimplemented macro, so processing panics. -/
theorem c1_private_message_remove_cex :
    receive_remove_action person1 "https://local.example/pm/9" (some "spam") db1 =
      (.panicked "not implemented", db1) ∧
    (receive_remove_action person1 "https://local.example/pm/9"
      (some "spam") db1).1.isErr = false := by
  exact ⟨rfl, rfl⟩

/-- C1 amended: a moderator remove whose object resolves to a private
message never silently succeeds, but instead of returning a clean
NotImplemented error it panics through the unimplemented macro,
leaving the state untouched. -/
theorem c1_private_message_remove_amended (actor : Person) (object : String)
    (reason : Option String) (st : DbState) (pm : PrivateMessage)
    (h : DeletableObjects.read_from_db object st = some (.privateMessage pm)) :
    receive_remove_action actor object reason st = (.panicked "not implemented", st) := by
  simp [receive_remove_action, h]

/-- C1 witness: the amended behavior at a concrete private message. -/
theorem c1_private_message_remove_amended_witness :
    receive_remove_action person1 "https://local.example/pm/9" (some "x") db1 =
      (.panicked "not implemented", db1) :=
  c1_private_message_remove_amended person1 "https://local.example/pm/9"
    (some "x") db1 pm9 rfl

/-- C2: with the object resolving to a post, receiving a Delete with
summary empty string or spam takes the moderator remove path and
writes exactly one moderation log row, storing reason none and some
spam respectively; receiving with summary absent takes the self delete
path, writes zero moderation log rows and flips the deleted flag. -/
theorem c2_reason_normalization (st : DbState) (d : Delete) (person : Person) (p : Post)
    (hfresh : st.activities.any (fun a => a.ap_id == d.id) = false)
    (hactor : dereference_person d.actor st = some person)
    (hobj : DeletableObjects.read_from_db d.object st = some (.post p)) :
    ((Delete.receive { d with summary := some "" } st).1 = .ok () ∧
     (Delete.receive { d with summary := some "" } st).2.mod_remove_post =
       { mod_person_id := person.id, post_id := p.id, removed := some true,
         reason := none } :: st.mod_remove_post ∧
     (Delete.receive { d with summary := some "" } st).2.mod_remove_community =
       st.mod_remove_community ∧
     (Delete.receive { d with summary := some "" } st).2.mod_remove_comment =
       st.mod_remove_comment) ∧
    ((Delete.receive { d with summary := some "spam" } st).1 = .ok () ∧
     (Delete.receive { d with summary := some "spam" } st).2.mod_remove_post =
       { mod_person_id := person.id, post_id := p.id, removed := some true,
         reason := some "spam" } :: st.mod_remove_post ∧
     (Delete.receive { d with summary := some "spam" } st).2.mod_remove_community =
       st.mod_remove_community ∧
     (Delete.receive { d with summary := some "spam" } st).2.mod_remove_comment =
       st.mod_remove_comment) ∧
    ((Delete.receive { d with summary := none } st).1 = .ok () ∧
     (Delete.receive { d with summary := none } st).2.mod_remove_post =
       st.mod_remove_post ∧
     (Delete.receive { d with summary := none } st).2.mod_remove_community =
       st.mod_remove_community ∧
     (Delete.receive { d with summary := none } st).2.mod_remove_comment =
       st.mod_remove_comment ∧
     (Delete.receive { d with summary := none } st).2.posts =
       st.posts.map (fun q => if q.id == p.id then { q with deleted := true } else q)) := by
  have he : ("" : String).isEmpty = true := rfl
  have hsp : ("spam" : String).isEmpty = false := rfl
  refine ⟨?_, ?_, ?_⟩ <;>
  simp [Delete.receive, insert_activity, Activity.create, hfresh, he, hsp,
    dereference_person_activities_update, hactor, receive_remove_action,
    read_from_db_activities_update, hobj, receive_delete_action]

/-- C2 witness: the three receives at the concrete post fixture. -/
theorem c2_reason_normalization_witness :
    (Delete.receive { delSpam with summary := some "" } db1).2.mod_remove_post =
      { mod_person_id := person1.id, post_id := post3.id, removed := some true,
        reason := none } :: db1.mod_remove_post ∧
    (Delete.receive { delSpam with summary := some "spam" } db1).2.mod_remove_post =
      { mod_person_id := person1.id, post_id := post3.id, removed := some true,
        reason := some "spam" } :: db1.mod_remove_post ∧
    (Delete.receive { delSpam with summary := none } db1).2.mod_remove_post =
      db1.mod_remove_post := by
  have h := c2_reason_normalization db1 delSpam person1 post3 rfl rfl rfl
  exact ⟨h.1.2.1, h.2.1.2.1, h.2.2.2.1⟩

/-- C3 counterexample: the forbidden message for removing a local
community starts with a capital letter; it is not the lowercase
message the claim states. -/
theorem c3_local_community_remove_cex :
    (Delete.receive delLocalCommunity db1).1 =
      .err "Only local admin can remove community" ∧
    (Delete.receive delLocalCommunity db1).1 ≠
      .err "only local admin can remove community" := by
  exact ⟨rfl, by decide⟩

/-- C3 amended: a moderator remove whose object resolves to a local
community fails with the error Only local admin can remove community
and writes no moderation record, changes no community row and requests
no notification. -/
theorem c3_local_community_remove_amended (st : DbState) (d : Delete) (person : Person)
    (community : Community) (s : String)
    (hsum : d.summary = some s)
    (hfresh : st.activities.any (fun a => a.ap_id == d.id) = false)
    (hactor : dereference_person d.actor st = some person)
    (hobj : DeletableObjects.read_from_db d.object st = some (.community community))
    (hlocal : community.is_local = true) :
    (Delete.receive d st).1 = .err "Only local admin can remove community" ∧
    (Delete.receive d st).2.mod_remove_community = st.mod_remove_community ∧
    (Delete.receive d st).2.communities = st.communities ∧
    (Delete.receive d st).2.notifications = st.notifications := by
  cases hse : s.isEmpty <;>
  simp [Delete.receive, insert_activity, Activity.create, hfresh, hsum, hse,
    dereference_person_activities_update, hactor, receive_remove_action,
    read_from_db_activities_update, hobj, hlocal]

/-- C3 witness: the amended behavior at the concrete local community,
with an empty reason to show the guard also covers that case. -/
theorem c3_local_community_remove_amended_witness :
    (Delete.receive { delLocalCommunity with summary := some "" } db1).1 =
      .err "Only local admin can remove community" ∧
    (Delete.receive { delLocalCommunity with summary := some "" } db1).2.mod_remove_community =
      db1.mod_remove_community ∧
    (Delete.receive { delLocalCommunity with summary := some "" } db1).2.communities =
      db1.communities ∧
    (Delete.receive { delLocalCommunity with summary := some "" } db1).2.notifications =
      db1.notifications :=
  c3_local_community_remove_amended db1 { delLocalCommunity with summary := some "" }
    person1 community5 "" rfl rfl rfl rfl rfl

/-- C4 counterexample: delivering a Delete whose id already has a
ledger entry makes receive return the propagated conflict error, not
success. -/
theorem c4_duplicate_delivery_cex :
    Delete.receive delSpam dbDup = (.err "duplicate activity ap_id", dbDup) ∧
    (Delete.receive delSpam dbDup).1 ≠ .ok () := by
  exact ⟨rfl, by decide⟩

/-- C4 amended: when the activity id already has a ledger entry, the
conflicting insert is propagated as an error and receive reapplies no
effects, returning with the state unchanged; it does not return
success. -/
theorem c4_duplicate_delivery_amended (st : DbState) (d : Delete) (u : UndoFollow)
    (hd : st.activities.any (fun a => a.ap_id == d.id) = true)
    (hu : st.activities.any (fun a => a.ap_id == u.id) = true) :
    Delete.receive d st = (.err "duplicate activity ap_id", st) ∧
    UndoFollow.receive u st = (.err "duplicate activity ap_id", st) := by
  constructor <;>
  simp [Delete.receive, UndoFollow.receive, insert_activity, Activity.create, hd, hu]

/-- C4 witness: the amended behavior at the concrete duplicated
activities. -/
theorem c4_duplicate_delivery_amended_witness :
    Delete.receive delSpam dbDup = (.err "duplicate activity ap_id", dbDup) ∧
    UndoFollow.receive undo1 dbDup = (.err "duplicate activity ap_id", dbDup) :=
  c4_duplicate_delivery_amended dbDup delSpam undo1 (by decide) (by decide)

/-- C5: both receive paths perform the ledger insert first; whenever
that insert does not succeed, receive returns the insert outcome with
the state completely unchanged, so no entity mutation, moderation row
or notification ever precedes a successful insert. -/
theorem c5_no_effect_before_insert (st : DbState) (d : Delete) (u : UndoFollow)
    (hd : (insert_activity d.id (.delete d) false false st).1.isOk = false)
    (hu : (insert_activity u.id (.undoFollow u) false true st).1.isOk = false) :
    Delete.receive d st = ((insert_activity d.id (.delete d) false false st).1, st) ∧
    UndoFollow.receive u st = ((insert_activity u.id (.undoFollow u) false true st).1, st) := by
  constructor
  · cases hda : st.activities.any (fun a => a.ap_id == d.id) with
    | false => simp [insert_activity, Activity.create, hda, ExecResult.isOk] at hd
    | true => simp [Delete.receive, insert_activity, Activity.create, hda]
  · cases hua : st.activities.any (fun a => a.ap_id == u.id) with
    | false => simp [insert_activity, Activity.create, hua, ExecResult.isOk] at hu
    | true => simp [UndoFollow.receive, insert_activity, Activity.create, hua]

/-- C5 witness: at the concrete duplicated state the failed insert
leaves both receives with the untouched state. -/
theorem c5_no_effect_before_insert_witness :
    Delete.receive delSpam dbDup =
      ((insert_activity delSpam.id (.delete delSpam) false false dbDup).1, dbDup) ∧
    UndoFollow.receive undo1 dbDup =
      ((insert_activity undo1.id (.undoFollow undo1) false true dbDup).1, dbDup) :=
  c5_no_effect_before_insert dbDup delSpam undo1 (by decide) (by decide)

/-- C9: a received UndoFollow is recorded in the ledger with sensitive
true and local false, so the audit retrieve endpoint withholds its
payload, while a received Delete is recorded with sensitive false and
local false, so its payload is served. -/
theorem c9_ledger_sensitivity_flags (st st2 : DbState) (u : UndoFollow) (d : Delete)
    (hu : st.activities.any (fun a => a.ap_id == u.id) = false)
    (hd : st2.activities.any (fun a => a.ap_id == d.id) = false) :
    (UndoFollow.receive u st).2.activities =
      { ap_id := u.id, data := .undoFollow u, is_local := false, sensitive := true }
        :: st.activities ∧
    retrieve u.id (UndoFollow.receive u st).2 = none ∧
    (Delete.receive d st2).2.activities =
      { ap_id := d.id, data := .delete d, is_local := false, sensitive := false }
        :: st2.activities ∧
    retrieve d.id (Delete.receive d st2).2 = some (.delete d) := by
  have hua := undo_follow_receive_activities u st hu
  have hda := delete_receive_activities d st2 hd
  refine ⟨hua, ?_, hda, ?_⟩
  · simp [retrieve, hua, List.find?]
  · simp [retrieve, hda, List.find?]

/-- C9 witness: the concrete UndoFollow entry is stored sensitive and
withheld, the concrete Delete entry is stored non-sensitive and
served. -/
theorem c9_ledger_sensitivity_flags_witness :
    (UndoFollow.receive undo1 db1).2.activities =
      { ap_id := undo1.id, data := .undoFollow undo1, is_local := false,
        sensitive := true } :: db1.activities ∧
    retrieve undo1.id (UndoFollow.receive undo1 db1).2 = none ∧
    (Delete.receive delSpam db1).2.activities =
      { ap_id := delSpam.id, data := .delete delSpam, is_local := false,
        sensitive := false } :: db1.activities ∧
    retrieve delSpam.id (Delete.receive delSpam db1).2 = some (.delete delSpam) :=
  c9_ledger_sensitivity_flags db1 db1 undo1 delSpam rfl rfl

end Lemmy
